import Mathlib

/-!
Shallow embedding of the beatport-top100 Go client (package `beatport`,
refactored variant with retry/backoff and token persistence, plus the CLI
rendering paths) and proofs about its specified behaviour.

HTTP bodies are modelled as abstract JSON values rather than raw byte
strings; Go's `encoding/json` unmarshalling into the concrete struct types
is modelled field by field (missing key or JSON null leaves the Go zero
value, a type mismatch is a decode error, unknown keys are ignored).
-/

/-- Abstract JSON values (the payload type of every modelled HTTP body). -/
inductive Json where
  | null : Json
  | bool (b : Bool) : Json
  | num (n : Int) : Json
  | str (s : String) : Json
  | arr (xs : List Json) : Json
  | obj (fields : List (String × Json)) : Json

/-- `OAuthToken` from models.go: the five JSON-tagged fields. -/
structure OAuthToken where
  accessToken : String
  expiresIn : Int
  refreshToken : String
  tokenType : String
  scope : String
deriving DecidableEq

/-- `Genre` from models.go. -/
structure Genre where
  id : Int
  name : String
  slug : String
deriving DecidableEq

/-- `Artist` from models.go. -/
structure Artist where
  id : Int
  name : String
  slug : String
deriving DecidableEq

/-- `Track` from models.go: id, name, ordered artists, mix name. -/
structure Track where
  id : Int
  name : String
  artists : List Artist
  mixName : String
deriving DecidableEq

/-- First binding of a key in a JSON object, as `encoding/json` sees it
for the objects produced by this program (no duplicate keys arise). -/
def jLookup : List (String × Json) → String → Option Json
  | [], _ => none
  | (k, v) :: rest, key => if k = key then some v else jLookup rest key

/-- Go unmarshalling of an object field into a `string`: missing key or
null leaves the zero value `""`; a non-string value is a decode error. -/
def decodeStrField (fs : List (String × Json)) (k : String) : Option String :=
  match jLookup fs k with
  | none => some ""
  | some Json.null => some ""
  | some (Json.str s) => some s
  | some _ => none

/-- Go unmarshalling of an object field into an `int`: missing key or
null leaves the zero value `0`; a non-number value is a decode error. -/
def decodeIntField (fs : List (String × Json)) (k : String) : Option Int :=
  match jLookup fs k with
  | none => some 0
  | some Json.null => some 0
  | some (Json.num n) => some n
  | some _ => none

/-- `json.Decode` into `OAuthToken` (tags access_token, expires_in,
refresh_token, token_type, scope). -/
def decodeOAuthToken : Json → Option OAuthToken
  | Json.obj fs => do
      let a ← decodeStrField fs "access_token"
      let e ← decodeIntField fs "expires_in"
      let r ← decodeStrField fs "refresh_token"
      let t ← decodeStrField fs "token_type"
      let s ← decodeStrField fs "scope"
      pure ⟨a, e, r, t, s⟩
  | _ => none

/-- `json.Encode` of an `OAuthToken` (what `SaveToken` writes to
token.json): one object with the five tagged fields. -/
def encodeOAuthToken (t : OAuthToken) : Json :=
  Json.obj
    [("access_token", Json.str t.accessToken),
     ("expires_in", Json.num t.expiresIn),
     ("refresh_token", Json.str t.refreshToken),
     ("token_type", Json.str t.tokenType),
     ("scope", Json.str t.scope)]

/-- `json.Decode` into `Artist`. A JSON null element leaves the Go zero
value struct. -/
def decodeArtist : Json → Option Artist
  | Json.obj fs => do
      let i ← decodeIntField fs "id"
      let n ← decodeStrField fs "name"
      let s ← decodeStrField fs "slug"
      pure ⟨i, n, s⟩
  | Json.null => some ⟨0, "", ""⟩
  | _ => none

/-- Go unmarshalling of an optional `[]Artist` field value: missing key or
null gives the nil slice. -/
def decodeArtists : Option Json → Option (List Artist)
  | none => some []
  | some Json.null => some []
  | some (Json.arr xs) => xs.mapM decodeArtist
  | some _ => none

/-- `json.Decode` into `Track` (tags id, name, artists, mix_name). -/
def decodeTrack : Json → Option Track
  | Json.obj fs => do
      let i ← decodeIntField fs "id"
      let n ← decodeStrField fs "name"
      let a ← decodeArtists (jLookup fs "artists")
      let m ← decodeStrField fs "mix_name"
      pure ⟨i, n, a, m⟩
  | Json.null => some ⟨0, "", [], ""⟩
  | _ => none

/-- Go unmarshalling of an optional `[]Track` field value. -/
def decodeTrackList : Option Json → Option (List Track)
  | none => some []
  | some Json.null => some []
  | some (Json.arr xs) => xs.mapM decodeTrack
  | some _ => none

/-- `json.Decode` into `TrackResponse` and projection to `.Results`
(the primary top-100 response shape, key "results"). -/
def decodeTrackResults : Json → Option (List Track)
  | Json.obj fs => decodeTrackList (jLookup fs "results")
  | Json.null => some []
  | _ => none

/-- `json.Decode` into the anonymous search-response struct of `GetTop100`
and projection to `.Tracks` (the fallback response shape, key "tracks"). -/
def decodeSearchTracks : Json → Option (List Track)
  | Json.obj fs => decodeTrackList (jLookup fs "tracks")
  | Json.null => some []
  | _ => none

/-- `json.Decode` into `GenreResponse` and projection to `.Results`. -/
def decodeGenreResults (j : Json) : Option (List Genre) :=
  match j with
  | Json.obj fs =>
      match jLookup fs "results" with
      | none => some []
      | some Json.null => some []
      | some (Json.arr xs) =>
          xs.mapM fun x =>
            match x with
            | Json.obj gfs => do
                let i ← decodeIntField gfs "id"
                let n ← decodeStrField gfs "name"
                let s ← decodeStrField gfs "slug"
                pure (Genre.mk i n s)
            | Json.null => some ⟨0, "", ""⟩
            | _ => none
      | some _ => none
  | Json.null => some []
  | _ => none

/-- Reasons `LoadToken` can fail: the `os.Open` not-found error for a
missing token.json, or the JSON decode error for malformed content. -/
inductive LoadError where
  | notFound : LoadError
  | decodeFailed : LoadError
deriving DecidableEq

/-- The token.json file: absent, or holding some JSON content. -/
def TokenStore := Option Json

/-- `LoadToken`: open token.json (absence is an open error) and decode it
into an `OAuthToken` (malformed content is a decode error). -/
def LoadTokenM (store : TokenStore) : Except LoadError OAuthToken :=
  match store with
  | none => Except.error LoadError.notFound
  | some j =>
      match decodeOAuthToken j with
      | none => Except.error LoadError.decodeFailed
      | some t => Except.ok t

/-- Round trip of the token file: decoding what `SaveToken` encodes
recovers every field. -/
theorem decode_encode_token (t : OAuthToken) :
    decodeOAuthToken (encodeOAuthToken t) = some t := by
  cases t
  simp [encodeOAuthToken, decodeOAuthToken, decodeStrField, decodeIntField, jLookup]

/-- An HTTP response as the client observes it: status code, the
`Location` header (`Header.Get` yields `""` when absent), and the body. -/
structure HttpResponse where
  status : Nat
  location : String
  body : Json

/-- Result of one `HTTPClient.Do` call (or of a whole `doRequest`):
either a transport error (`err != nil`, no usable response) or a
response. -/
inductive ReqResult where
  | netError (msg : String) : ReqResult
  | ok (resp : HttpResponse) : ReqResult

/-- The `MaxRetries` constant. -/
def MaxRetries : Nat := 3

/-- The condition under which `doRequest` keeps looping: the attempt
errored, or the status is a server error (the code returns early exactly
when `err == nil && resp.StatusCode < 500`). -/
def retryable : ReqResult → Bool
  | ReqResult.netError _ => true
  | ReqResult.ok r => 500 ≤ r.status

/-- Observable outcome of a `doRequest` call: how many attempts ran, the
sleep durations (in seconds, in order) taken before retries, and the
returned `(resp, err)` pair. -/
structure DoResult where
  attempts : Nat
  sleeps : List Nat
  result : ReqResult

/-- The body of `doRequest`'s loop from iteration `i` with `fuel`
iterations left after this one; `oracle i` is what the i-th
`HTTPClient.Do` call yields. Iteration `i > 0` first sleeps `2^i`
seconds; the final iteration returns its outcome whether or not it is
retryable. -/
def doRequestGo (oracle : Nat → ReqResult) (i : Nat) : Nat → DoResult
  | 0 =>
      { attempts := 1
        sleeps := if 0 < i then [2 ^ i] else []
        result := oracle i }
  | fuel + 1 =>
      if retryable (oracle i) then
        let rest := doRequestGo oracle (i + 1) fuel
        { attempts := rest.attempts + 1
          sleeps := (if 0 < i then [2 ^ i] else []) ++ rest.sleeps
          result := rest.result }
      else
        { attempts := 1
          sleeps := if 0 < i then [2 ^ i] else []
          result := oracle i }

/-- `doRequest`: the loop `for i := 0; i <= MaxRetries; i++`. -/
def doRequest (oracle : Nat → ReqResult) : DoResult :=
  doRequestGo oracle 0 MaxRetries


/-- When the first attempt already returns (no error, status < 500),
`doRequest` stops after it with no sleep. -/
theorem doRequest_stop0 (oracle : Nat → ReqResult)
    (h0 : retryable (oracle 0) = false) :
    doRequest oracle = ⟨1, [], oracle 0⟩ := by
  simp [doRequest, doRequestGo, MaxRetries, h0]

/-- Retryable first attempt, second attempt returns. -/
theorem doRequest_stop1 (oracle : Nat → ReqResult)
    (h0 : retryable (oracle 0) = true) (h1 : retryable (oracle 1) = false) :
    doRequest oracle = ⟨2, [2], oracle 1⟩ := by
  simp [doRequest, doRequestGo, MaxRetries, h0, h1]

/-- Two retryable attempts, third attempt returns. -/
theorem doRequest_stop2 (oracle : Nat → ReqResult)
    (h0 : retryable (oracle 0) = true) (h1 : retryable (oracle 1) = true)
    (h2 : retryable (oracle 2) = false) :
    doRequest oracle = ⟨3, [2, 4], oracle 2⟩ := by
  simp [doRequest, doRequestGo, MaxRetries, h0, h1, h2]

/-- Three retryable attempts: the fourth attempt's outcome is returned
whether or not it is itself retryable, and no sleep follows it. -/
theorem doRequest_exhaust (oracle : Nat → ReqResult)
    (h0 : retryable (oracle 0) = true) (h1 : retryable (oracle 1) = true)
    (h2 : retryable (oracle 2) = true) :
    doRequest oracle = ⟨4, [2, 4, 8], oracle 3⟩ := by
  simp [doRequest, doRequestGo, MaxRetries, h0, h1, h2]

/-- Claim C1: `doRequest` makes between 1 and 4 attempts; it retries only
past attempts that failed or returned status ≥ 500; the sleeps are
exactly `2^1, ..., 2^(attempts-1)` seconds, i.e. one before each retry
and none after the final attempt; when every attempt is retryable (e.g.
all 5xx) exactly 4 attempts run, the backoffs are 2s, 4s, 8s, and the
final attempt's outcome is surfaced; a first response below 500 (2xx or
4xx) is returned after exactly one attempt with no sleep. -/
theorem doRequest_retry_policy (oracle : Nat → ReqResult) :
    1 ≤ (doRequest oracle).attempts ∧
    (doRequest oracle).attempts ≤ MaxRetries + 1 ∧
    (doRequest oracle).sleeps =
      (List.range ((doRequest oracle).attempts - 1)).map (fun k => 2 ^ (k + 1)) ∧
    (∀ k, k + 1 < (doRequest oracle).attempts → retryable (oracle k) = true) ∧
    ((∀ k, k ≤ MaxRetries → retryable (oracle k) = true) →
      (doRequest oracle).attempts = 4 ∧
      (doRequest oracle).sleeps = [2, 4, 8] ∧
      (doRequest oracle).result = oracle MaxRetries) ∧
    (retryable (oracle 0) = false →
      (doRequest oracle).attempts = 1 ∧
      (doRequest oracle).sleeps = [] ∧
      (doRequest oracle).result = oracle 0) := by
  by_cases h0 : retryable (oracle 0) = true
  · by_cases h1 : retryable (oracle 1) = true
    · by_cases h2 : retryable (oracle 2) = true
      · have hE := doRequest_exhaust oracle h0 h1 h2
        have hA : (doRequest oracle).attempts = 4 := by rw [hE]
        have hS : (doRequest oracle).sleeps = [2, 4, 8] := by rw [hE]
        have hR : (doRequest oracle).result = oracle 3 := by rw [hE]
        rw [hA, hS, hR]
        refine ⟨by decide, by decide, by decide, ?_, ?_, ?_⟩
        · intro k hk
          have hk3 : k = 0 ∨ k = 1 ∨ k = 2 := by omega
          rcases hk3 with h | h | h <;> subst h <;> assumption
        · intro _
          exact ⟨rfl, rfl, rfl⟩
        · intro hc; rw [h0] at hc; cases hc
      · have hE := doRequest_stop2 oracle h0 h1 (by simpa using h2)
        have hA : (doRequest oracle).attempts = 3 := by rw [hE]
        have hS : (doRequest oracle).sleeps = [2, 4] := by rw [hE]
        have hR : (doRequest oracle).result = oracle 2 := by rw [hE]
        rw [hA, hS, hR]
        refine ⟨by decide, by decide, by decide, ?_, ?_, ?_⟩
        · intro k hk
          have hk2 : k = 0 ∨ k = 1 := by omega
          rcases hk2 with h | h <;> subst h <;> assumption
        · intro hall
          exact absurd (hall 2 (by decide)) h2
        · intro hc; rw [h0] at hc; cases hc
    · have hE := doRequest_stop1 oracle h0 (by simpa using h1)
      have hA : (doRequest oracle).attempts = 2 := by rw [hE]
      have hS : (doRequest oracle).sleeps = [2] := by rw [hE]
      have hR : (doRequest oracle).result = oracle 1 := by rw [hE]
      rw [hA, hS, hR]
      refine ⟨by decide, by decide, by decide, ?_, ?_, ?_⟩
      · intro k hk
        have hk1 : k = 0 := by omega
        subst hk1
        exact h0
      · intro hall
        exact absurd (hall 1 (by decide)) h1
      · intro hc; rw [h0] at hc; cases hc
  · have hE := doRequest_stop0 oracle (by simpa using h0)
    have hA : (doRequest oracle).attempts = 1 := by rw [hE]
    have hS : (doRequest oracle).sleeps = [] := by rw [hE]
    have hR : (doRequest oracle).result = oracle 0 := by rw [hE]
    rw [hA, hS, hR]
    refine ⟨by decide, by decide, by decide, ?_, ?_, ?_⟩
    · intro k hk
      omega
    · intro hall
      exact absurd (hall 0 (by decide)) h0
    · intro _
      exact ⟨rfl, rfl, rfl⟩

/-- A constantly-503 transport oracle. -/
def oracle503 : Nat → ReqResult :=
  fun _ => ReqResult.ok ⟨503, "", Json.null⟩

/-- Witness for C1 at the all-5xx oracle: 4 attempts, 2s/4s/8s backoff,
final outcome surfaced. -/
theorem doRequest_retry_policy_witness :
    (doRequest oracle503).attempts = 4 ∧
    (doRequest oracle503).sleeps = [2, 4, 8] ∧
    (doRequest oracle503).result = oracle503 MaxRetries :=
  (doRequest_retry_policy oracle503).2.2.2.2.1 (fun _ _ => rfl)

/-- The single-quote character, as used by the API_CLIENT_ID pattern. -/
def quoteChar : Char := Char.ofNat 39

/-- The newline character; Go's regexp `.` does not match it. -/
def nlChar : Char := Char.ofNat 10

/-- Index of the LAST occurrence of the literal `suf` in `s` (Go's greedy
`.*` backtracks from the right, so `.*suf` consumes up to the final
occurrence of `suf`). -/
def lastMatchIdx (suf : List Char) : List Char → Option Nat
  | [] => if List.isPrefixOf suf [] then some 0 else none
  | c :: cs =>
      match lastMatchIdx suf cs with
      | some j => some (j + 1)
      | none => if List.isPrefixOf suf (c :: cs) then some 0 else none

/-- Match the regex `pre(.*)suf` anchored at the start of `s`, where `pre`
and `suf` are literals and `.*` is greedy and stays within one line.
Returns the characters consumed by `.*` and the rest of `s` after the
whole match. -/
def matchAt (pre suf s : List Char) : Option (List Char × List Char) :=
  if List.isPrefixOf pre s then
    let after := s.drop pre.length
    let line := after.takeWhile (fun c => c ≠ nlChar)
    match lastMatchIdx suf line with
    | some j => some (line.take j, after.drop (j + suf.length))
    | none => none
  else none

/-- Leftmost match of `pre(.*)suf` in `s` (Go's `FindStringSubmatch`). -/
def findFirstFrom (pre suf : List Char) : List Char → Option (List Char × List Char)
  | [] => none
  | c :: cs =>
      match matchAt pre suf (c :: cs) with
      | some r => some r
      | none => findFirstFrom pre suf cs

/-- Successive non-overlapping matches (Go's `FindAllStringSubmatch` with
limit -1), collected via fuel bounded by the text length: every match of
a nonempty `pre` consumes at least one character. -/
def findAllAux (pre suf : List Char) : Nat → List Char → List (List Char)
  | 0, _ => []
  | fuel + 1, s =>
      match findFirstFrom pre suf s with
      | none => []
      | some (mid, rest) => mid :: findAllAux pre suf fuel rest

/-- All captures of `pre(.*)suf` in `s`, in document order. -/
def findAllMatches (pre suf s : List Char) : List (List Char) :=
  findAllAux pre suf (s.length + 1) s

/-- The literal before the capture group of the script regex
`src="(/static/btprt/.*\.js)"`; the group itself starts at `/static`. -/
def scriptPre : List Char := "src=\"/static/btprt/".toList

/-- The literal after the greedy part of the script regex; the closing
double quote is outside the capture group. -/
def scriptSuf : List Char := ".js\"".toList

/-- All captures of the script-source regex in a documentation page, in
document order: each capture is `/static/btprt/` ++ middle ++ `.js`. -/
def scriptMatches (page : String) : List String :=
  (findAllMatches scriptPre scriptSuf page.toList).map
    (fun mid => String.mk ("/static/btprt/".toList ++ mid ++ ".js".toList))

/-- The literal before the capture group of the client-id regex
`API_CLIENT_ID: \'(.*)\'`. -/
def cidPre : List Char := "API_CLIENT_ID: ".toList ++ [quoteChar]

/-- The literal closing the client-id regex. -/
def cidSuf : List Char := [quoteChar]

/-- Scan a script body for the client-id regex and return the first
capture (the code reads `clientMatches[0][1]`). -/
def extractClientID (body : String) : Option String :=
  (findFirstFrom cidPre cidSuf body.toList).map (fun r => String.mk r.fst)

/-- Split `s` at the first occurrence of the literal `sep`, returning the
part before it and the part after it. -/
def splitFirst (sep : List Char) : List Char → Option (List Char × List Char)
  | [] => if List.isPrefixOf sep [] then some ([], []) else none
  | c :: cs =>
      if List.isPrefixOf sep (c :: cs) then some ([], (c :: cs).drop sep.length)
      else
        match splitFirst sep cs with
        | some (a, b) => some (c :: a, b)
        | none => none

/-- `url.Parse` restricted to what `FetchClientID` reads from it: the
scheme (before `://`) and the host (after `://`, up to the next `/`).
`url.Parse` only errors on URLs with control characters, which never
arise here, so the error branch (hardcoding https://api.beatport.com) is
modelled as unreachable. -/
def parseSchemeHost (u : String) : String × String :=
  match splitFirst "://".toList u.toList with
  | none => ("", "")
  | some (sch, rest) => (String.mk sch, String.mk (rest.takeWhile (fun c => c ≠ '/')))

/-- Resolution of one script-source match to an absolute URL: a match
already starting with `http` is used as is, otherwise the configured base
URL's scheme and host are prepended. -/
def resolveScriptURL (baseURL m : String) : String :=
  if List.isPrefixOf "http".toList m.toList then m
  else
    let sh := parseSchemeHost baseURL
    sh.fst ++ "://" ++ sh.snd ++ m

/-- The contribution of one candidate script match: fetch the resolved
asset (`none` models a failed `doRequest` or a body-read error) and scan
it for the client id. -/
def candVal (baseURL : String) (fetchAsset : String → Option String) (m : String) :
    Option String :=
  (fetchAsset (resolveScriptURL baseURL m)).bind extractClientID

/-- The `for _, match := range matches` loop of `FetchClientID`: a fetch
or read failure on a candidate skips it (`continue`), an asset without
the pattern is also skipped, and the first extracted value is returned. -/
def fetchLoop (baseURL : String) (fetchAsset : String → Option String) :
    List String → Option String
  | [] => none
  | m :: rest =>
      match fetchAsset (resolveScriptURL baseURL m) with
      | none => fetchLoop baseURL fetchAsset rest
      | some body =>
          match extractClientID body with
          | some v => some v
          | none => fetchLoop baseURL fetchAsset rest

/-- `FetchClientID`, given the fetched documentation-page body and an
oracle for the asset fetches: scan the page for script sources, then loop
over the candidates; `none` models the final
"could not fetch API_CLIENT_ID" error. -/
def fetchClientID (baseURL page : String) (fetchAsset : String → Option String) :
    Option String :=
  fetchLoop baseURL fetchAsset (scriptMatches page)

/-- The candidate loop of `FetchClientID` is the first hit over the
candidates in document order. -/
theorem fetchLoop_eq_findSome (base : String) (f : String → Option String) :
    ∀ ms : List String, fetchLoop base f ms = ms.findSome? (candVal base f) := by
  intro ms
  induction ms with
  | nil => rfl
  | cons m rest ih =>
      rw [List.findSome?_cons]
      unfold fetchLoop candVal
      cases hf : f (resolveScriptURL base m) with
      | none => simpa using ih
      | some body =>
          cases he : extractClientID body with
          | none => simpa [Option.bind, he] using ih
          | some v => simp [Option.bind, he]

/-- The default base URL constant. -/
def DefaultAPIBaseURL : String := "https://api.beatport.com/v4"

/-- The spec's example documentation page. -/
def examplePage : String :=
  "<html><script src=\"/static/btprt/main.js\"></script></html>"

/-- The spec's example script asset body, containing
`API_CLIENT_ID: 'abc123'`. -/
def exampleAsset : String :=
  "API_CLIENT_ID: " ++ String.mk [quoteChar] ++ "abc123" ++ String.mk [quoteChar]

/-- An asset oracle serving `exampleAsset` only at the absolute URL the
resolver must construct from the default base URL and the relative match. -/
def exampleAssets : String → Option String :=
  fun u =>
    if u = "https://api.beatport.com/static/btprt/main.js" then some exampleAsset
    else none

/-- Claim C4: the resolver algorithm. The example page resolves to
"abc123" (the relative match is made absolute with the base URL's scheme
and host); when no candidate asset yields the pattern the resolution
fails; and the first value found short-circuits all remaining
candidates. -/
theorem fetchClientID_algorithm :
    fetchClientID DefaultAPIBaseURL examplePage exampleAssets = some "abc123" ∧
    (∀ base page f, (∀ m ∈ scriptMatches page, candVal base f m = none) →
      fetchClientID base page f = none) ∧
    (∀ base f v (ms₁ : List String) (m : String) (ms₂ : List String),
      (∀ m₁ ∈ ms₁, candVal base f m₁ = none) → candVal base f m = some v →
      fetchLoop base f (ms₁ ++ m :: ms₂) = some v) := by
  refine ⟨by decide, ?_, ?_⟩
  · intro base page f h
    rw [fetchClientID, fetchLoop_eq_findSome]
    exact List.findSome?_eq_none_iff.mpr h
  · intro base f v ms₁ m ms₂ h₁ hm
    rw [fetchLoop_eq_findSome]
    induction ms₁ with
    | nil => rw [List.nil_append, List.findSome?_cons, hm]
    | cons a as ih =>
        rw [List.cons_append, List.findSome?_cons, h₁ a (by simp)]
        exact ih (fun x hx => h₁ x (by simp [hx]))

/-- Witness for C4: the short-circuit conjunct applied with one earlier
failing candidate and one later never-consulted candidate. -/
theorem fetchClientID_algorithm_witness :
    fetchLoop DefaultAPIBaseURL exampleAssets
      (["/static/btprt/missing.js"] ++ "/static/btprt/main.js" :: ["/static/btprt/later.js"]) =
      some "abc123" :=
  fetchClientID_algorithm.2.2 DefaultAPIBaseURL exampleAssets "abc123"
    ["/static/btprt/missing.js"] "/static/btprt/main.js" ["/static/btprt/later.js"]
    (by intro m₁ hm₁; simp at hm₁; subst hm₁; decide) (by decide)

/-- Claim C10 (implicit): per-candidate fetch or read failures are
tolerated. `fetchClientID` equals the first hit over the candidates in
order; it reports failure exactly when every candidate (fetched or not)
yielded nothing; and a candidate whose asset fetch fails is simply
skipped, so it never prevents resolution from a later candidate. -/
theorem fetchClientID_tolerates_fetch_failures :
    (∀ base page f,
      fetchClientID base page f = (scriptMatches page).findSome? (candVal base f)) ∧
    (∀ base page f,
      fetchClientID base page f = none ↔
        ∀ m ∈ scriptMatches page, candVal base f m = none) ∧
    (∀ base f m rest, f (resolveScriptURL base m) = none →
      fetchLoop base f (m :: rest) = fetchLoop base f rest) := by
  refine ⟨?_, ?_, ?_⟩
  · intro base page f
    exact fetchLoop_eq_findSome base f (scriptMatches page)
  · intro base page f
    rw [fetchClientID, fetchLoop_eq_findSome]
    exact List.findSome?_eq_none_iff
  · intro base f m rest hf
    rw [fetchLoop_eq_findSome, fetchLoop_eq_findSome, List.findSome?_cons]
    simp [candVal, hf]

/-- Witness for C10: with the example assets, a candidate whose fetch
fails is skipped. -/
theorem fetchClientID_tolerates_fetch_failures_witness :
    fetchLoop DefaultAPIBaseURL exampleAssets
      ("/static/btprt/missing.js" :: ["/static/btprt/main.js"]) =
      fetchLoop DefaultAPIBaseURL exampleAssets ["/static/btprt/main.js"] :=
  fetchClientID_tolerates_fetch_failures.2.2 DefaultAPIBaseURL exampleAssets
    "/static/btprt/missing.js" ["/static/btprt/main.js"] (by decide)

/-- The error taxonomy surfaced by the client's operations, carrying the
same diagnostic payloads the Go errors format into their messages. -/
inductive FlowError where
  | transportFailed (msg : String) : FlowError
  | decodeFailed : FlowError
  | scrapeFailed : FlowError
  | loginFailed (res : List (String × Json)) : FlowError
  | noLocation (body : Json) : FlowError
  | noCode (location : String) : FlowError
  | tokenExchangeFailed (body : Json) : FlowError
  | noTokenToSave : FlowError
  | saveFailed : FlowError
  | genresFailed (body : Json) : FlowError
  | top100FallbackFailed (body : Json) : FlowError

/-- The mutable fields of `Client` the flow reads and writes (the cookie
jar and timeout carry no claim-relevant state). -/
structure ClientS where
  token : Option OAuthToken
  clientID : String
  baseURL : String
  authURL : String

/-- The login endpoint URL. -/
def loginURL (c : ClientS) : String := c.authURL ++ "/login/"

/-- The authorization endpoint URL with its three query parameters
(percent-encoding of the redirect URI is not modelled; no claim reads
this string apart). -/
def authorizeURL (c : ClientS) : String :=
  c.authURL ++ "/o/authorize/?client_id=" ++ c.clientID ++
    "&redirect_uri=" ++ c.authURL ++ "/o/post-message/" ++ "&response_type=code"

/-- The token endpoint URL. -/
def tokenURL (c : ClientS) : String := c.authURL ++ "/o/token/"

/-- `SaveToken`: with no in-memory token it fails; otherwise it rewrites
token.json with the encoded token, or fails loudly when the file cannot
be written (`writeOK = false` models an `os.Create` failure, leaving the
store unchanged). -/
def SaveTokenM (c : ClientS) (store : TokenStore) (writeOK : Bool) :
    TokenStore × Except FlowError Unit :=
  match c.token with
  | none => (store, Except.error FlowError.noTokenToSave)
  | some t =>
      if writeOK then (some (encodeOAuthToken t), Except.ok ())
      else (store, Except.error FlowError.saveFailed)

/-- Go decoding into `map[string]interface{}`: any JSON object. -/
def decodeObj : Json → Option (List (String × Json))
  | Json.obj fs => some fs
  | _ => none

/-- `Login(username, password)`: first try `LoadToken` — on success adopt
the stored token and return with no network call; on any load failure
POST the credentials to the login endpoint (`net` maps the request URL to
the post-retry `doRequest` outcome; the JSON credential body is not
modelled as no claim reads it), decode the body into a map, and succeed
exactly when it has a "username" key, otherwise fail carrying the decoded
map. Returns the new client state, the URLs requested, and the result. -/
def LoginM (c : ClientS) (store : TokenStore) (net : String → ReqResult) :
    ClientS × List String × Except FlowError Unit :=
  match LoadTokenM store with
  | Except.ok t => ({ c with token := some t }, [], Except.ok ())
  | Except.error _ =>
      match net (loginURL c) with
      | ReqResult.netError e => (c, [loginURL c], Except.error (FlowError.transportFailed e))
      | ReqResult.ok r =>
          match decodeObj r.body with
          | none => (c, [loginURL c], Except.error FlowError.decodeFailed)
          | some res =>
              if (jLookup res "username").isSome then (c, [loginURL c], Except.ok ())
              else (c, [loginURL c], Except.error (FlowError.loginFailed res))

/-- `locURL.Query().Get(key)`: the first value of `key` in the query
string of `u` (after the first `?`, `&`-separated `k=v` pairs;
percent-decoding is not modelled). Returns `""` when absent. -/
def queryGet (u key : String) : String :=
  match splitFirst ['?'] u.toList with
  | none => ""
  | some (_, q) =>
      let pairs := (String.mk q).splitOn "&"
      let hit := pairs.findSome? fun p =>
        match splitFirst ['='] p.toList with
        | some (k, v) => if String.mk k = key then some (String.mk v) else none
        | none => none
      match hit with
      | some v => v
      | none => ""

/-- `Authorize`: with a token already in memory return `""` at once with
no network call; otherwise resolve the client id first when unknown
(`cid` is the trace and outcome of that `FetchClientID` call, whose
internals are `fetchClientID` above), then GET the authorization endpoint
without following redirects and require a `Location` header holding a
`code` query parameter; the missing-header and missing-code failures
carry the observed body resp. location. -/
def AuthorizeM (c : ClientS) (cid : List String × Option String)
    (net : String → ReqResult) : ClientS × List String × Except FlowError String :=
  match c.token with
  | some _ => (c, [], Except.ok "")
  | none =>
      match (if c.clientID = "" then some cid else none) with
      | some (t₀, none) => (c, t₀, Except.error FlowError.scrapeFailed)
      | other =>
          let resolved :=
            match other with
            | some (t₀, some v) => ({ c with clientID := v }, t₀)
            | _ => (c, ([] : List String))
          let c' := resolved.fst
          let t₀ := resolved.snd
          match net (authorizeURL c') with
          | ReqResult.netError e =>
              (c', t₀ ++ [authorizeURL c'], Except.error (FlowError.transportFailed e))
          | ReqResult.ok r =>
              if r.location = "" then
                (c', t₀ ++ [authorizeURL c'], Except.error (FlowError.noLocation r.body))
              else
                let code := queryGet r.location "code"
                if code = "" then
                  (c', t₀ ++ [authorizeURL c'], Except.error (FlowError.noCode r.location))
                else (c', t₀ ++ [authorizeURL c'], Except.ok code)

/-- `GetToken(code)`: with a token already in memory return at once with
no network call; otherwise POST the form-encoded exchange to the token
endpoint, fail on any non-200 carrying the body, decode the token, set it
in memory, and return `SaveToken`'s result. -/
def GetTokenM (c : ClientS) (store : TokenStore) (writeOK : Bool)
    (net : String → ReqResult) :
    ClientS × TokenStore × List String × Except FlowError Unit :=
  match c.token with
  | some _ => (c, store, [], Except.ok ())
  | none =>
      match net (tokenURL c) with
      | ReqResult.netError e =>
          (c, store, [tokenURL c], Except.error (FlowError.transportFailed e))
      | ReqResult.ok r =>
          if r.status ≠ 200 then
            (c, store, [tokenURL c], Except.error (FlowError.tokenExchangeFailed r.body))
          else
            match decodeOAuthToken r.body with
            | none => (c, store, [tokenURL c], Except.error FlowError.decodeFailed)
            | some t =>
                let c' := { c with token := some t }
                let saved := SaveTokenM c' store writeOK
                (c', saved.fst, [tokenURL c], saved.snd)

/-- The default auth base URL constant. -/
def DefaultAuthBaseURL : String := "https://api.beatport.com/v4/auth"

/-- A client as `NewClient` returns it: no token, no client id, default
base URLs. -/
def freshClient : ClientS :=
  { token := none, clientID := "", baseURL := DefaultAPIBaseURL, authURL := DefaultAuthBaseURL }

/-- A network oracle whose every response is a 200 login success body. -/
def loginOKNet : String → ReqResult :=
  fun _ => ReqResult.ok ⟨200, "", Json.obj [("username", Json.str "user")]⟩

/-- A concrete stored token. -/
def sampleToken : OAuthToken :=
  { accessToken := "tok", expiresIn := 3600, refreshToken := "ref",
    tokenType := "Bearer", scope := "app:docs" }

/-- A client that already holds `sampleToken` in memory. -/
def tokenClient : ClientS := { freshClient with token := some sampleToken }

/-- Claim C8: `SaveToken` followed by `LoadToken` restores the token
field for field. -/
theorem token_round_trip (c : ClientS) (t : OAuthToken) (store : TokenStore)
    (h : c.token = some t) :
    (SaveTokenM c store true).snd = Except.ok () ∧
    LoadTokenM (SaveTokenM c store true).fst = Except.ok t := by
  unfold SaveTokenM
  rw [h]
  exact ⟨rfl, by simp [LoadTokenM, decode_encode_token]⟩

/-- Witness for C8 at `sampleToken`. -/
theorem token_round_trip_witness :
    (SaveTokenM tokenClient none true).snd = Except.ok () ∧
    LoadTokenM (SaveTokenM tokenClient none true).fst = Except.ok sampleToken :=
  token_round_trip tokenClient sampleToken none rfl

/-- Counterexample to claim C3 as stated: with `Client.Token` already set
but no stored token file, `Login` still issues a network login call (its
`LoadToken` fails, and `Login` checks only that, not the in-memory
token), so "Token is already set" alone does not make the whole flow
network-free. -/
theorem login_ignores_memory_token_counterexample :
    (LoginM tokenClient none loginOKNet).2.1 = [loginURL tokenClient] ∧
    (LoginM tokenClient none loginOKNet).2.1 ≠ [] := by
  refine ⟨rfl, ?_⟩
  intro h
  simp [LoginM, LoadTokenM, loginOKNet, decodeObj, jLookup] at h

/-- Claim C3 as amended: when `LoadToken` succeeds, `Login`, `Authorize`
and `GetToken` all short-circuit — the whole flow issues zero network
calls and ends with the loaded token in memory (the Authenticated state);
independently, a set in-memory token short-circuits `Authorize` and
`GetToken` with zero network calls. -/
theorem auth_flow_short_circuit (c : ClientS) (store : TokenStore)
    (net : String → ReqResult) (cid : List String × Option String)
    (writeOK : Bool) (t : OAuthToken)
    (hload : LoadTokenM store = Except.ok t) :
    LoginM c store net = ({ c with token := some t }, [], Except.ok ()) ∧
    AuthorizeM { c with token := some t } cid net =
      ({ c with token := some t }, [], Except.ok "") ∧
    GetTokenM { c with token := some t } store writeOK net =
      ({ c with token := some t }, store, [], Except.ok ()) ∧
    (∀ c₁ : ClientS, c₁.token.isSome = true →
      AuthorizeM c₁ cid net = (c₁, [], Except.ok "") ∧
      GetTokenM c₁ store writeOK net = (c₁, store, [], Except.ok ())) := by
  refine ⟨?_, rfl, rfl, ?_⟩
  · unfold LoginM
    rw [hload]
  · intro c₁ h₁
    cases hc : c₁.token with
    | none => rw [hc] at h₁; cases h₁
    | some t₁ => exact ⟨by unfold AuthorizeM; rw [hc], by unfold GetTokenM; rw [hc]⟩

/-- Witness for the amended C3: a stored `sampleToken` short-circuits the
whole flow from a fresh client with zero network calls. -/
theorem auth_flow_short_circuit_witness :
    LoginM freshClient (some (encodeOAuthToken sampleToken)) loginOKNet =
      ({ freshClient with token := some sampleToken }, [], Except.ok ()) ∧
    AuthorizeM { freshClient with token := some sampleToken } ([], none) loginOKNet =
      ({ freshClient with token := some sampleToken }, [], Except.ok "") ∧
    GetTokenM { freshClient with token := some sampleToken }
        (some (encodeOAuthToken sampleToken)) true loginOKNet =
      ({ freshClient with token := some sampleToken },
        some (encodeOAuthToken sampleToken), [], Except.ok ()) ∧
    (∀ c₁ : ClientS, c₁.token.isSome = true →
      AuthorizeM c₁ ([], none) loginOKNet = (c₁, [], Except.ok "") ∧
      GetTokenM c₁ (some (encodeOAuthToken sampleToken)) true loginOKNet =
        (c₁, some (encodeOAuthToken sampleToken), [], Except.ok ())) :=
  auth_flow_short_circuit freshClient (some (encodeOAuthToken sampleToken))
    loginOKNet ([], none) true sampleToken
    (by simp [LoadTokenM, decode_encode_token])

/-- A token file holding content that does not decode as an OAuthToken. -/
def malformedTokenFile : Json := Json.str "not a token record"

/-- Counterexample to claim C5 as stated: a token file whose content
fails to decode is handled by `Login` exactly like an absent file — the
flow proceeds to authenticate and even succeeds; the decode failure is
not surfaced as a hard error. -/
theorem load_decode_failure_not_hard_counterexample :
    LoginM freshClient (some malformedTokenFile) loginOKNet =
      LoginM freshClient none loginOKNet ∧
    (LoginM freshClient (some malformedTokenFile) loginOKNet).2.2 = Except.ok () := by
  exact ⟨rfl, rfl⟩

/-- Claim C5 as amended: `LoadToken` itself returns distinct errors for a
missing file and for undecodable content, but the Authentication Flow
treats every load failure alike as "must authenticate": `Login` behaves
on any failing store exactly as on an absent one, so malformed content is
not a hard error. -/
theorem load_error_semantics (c : ClientS) (store : TokenStore)
    (net : String → ReqResult) (j : Json)
    (hmal : decodeOAuthToken j = none)
    (hfail : ∀ t, LoadTokenM store ≠ Except.ok t) :
    LoadTokenM none = Except.error LoadError.notFound ∧
    LoadTokenM (some j) = Except.error LoadError.decodeFailed ∧
    LoginM c store net = LoginM c none net := by
  refine ⟨rfl, by simp [LoadTokenM, hmal], ?_⟩
  cases hL : LoadTokenM store with
  | ok t => exact absurd hL (hfail t)
  | error e =>
      unfold LoginM
      rw [hL]
      rfl

/-- Witness for the amended C5 at the malformed file. -/
theorem load_error_semantics_witness :
    LoadTokenM none = Except.error LoadError.notFound ∧
    LoadTokenM (some malformedTokenFile) = Except.error LoadError.decodeFailed ∧
    LoginM freshClient (some malformedTokenFile) loginOKNet =
      LoginM freshClient none loginOKNet :=
  load_error_semantics freshClient (some malformedTokenFile) loginOKNet
    malformedTokenFile rfl (by intro t h; cases h)

/-- Claim C6: on a 200 token-endpoint response that decodes, `GetToken`
sets the in-memory token and persists its encoding; when the write fails
the save error is returned but the in-memory token stays set and the
store is untouched. -/
theorem getToken_persists (c : ClientS) (store : TokenStore) (writeOK : Bool)
    (net : String → ReqResult) (r : HttpResponse) (t : OAuthToken)
    (hc : c.token = none) (hnet : net (tokenURL c) = ReqResult.ok r)
    (hst : r.status = 200) (hdec : decodeOAuthToken r.body = some t) :
    (GetTokenM c store writeOK net).fst.token = some t ∧
    (writeOK = true →
      (GetTokenM c store writeOK net).2.1 = some (encodeOAuthToken t) ∧
      (GetTokenM c store writeOK net).2.2.2 = Except.ok ()) ∧
    (writeOK = false →
      (GetTokenM c store writeOK net).2.2.2 = Except.error FlowError.saveFailed ∧
      (GetTokenM c store writeOK net).2.1 = store) := by
  have hG : GetTokenM c store writeOK net =
      ({ c with token := some t },
        (SaveTokenM { c with token := some t } store writeOK).fst,
        [tokenURL c],
        (SaveTokenM { c with token := some t } store writeOK).snd) := by
    unfold GetTokenM
    rw [hc, hnet]
    simp [hst, hdec]
  rw [hG]
  cases writeOK with
  | true =>
      refine ⟨rfl, ?_, ?_⟩
      · intro _
        exact ⟨by simp [SaveTokenM], by simp [SaveTokenM]⟩
      · intro h
        cases h
  | false =>
      refine ⟨rfl, ?_, ?_⟩
      · intro h
        cases h
      · intro _
        exact ⟨by simp [SaveTokenM], by simp [SaveTokenM]⟩

/-- A token-endpoint oracle answering 200 with an encoded `sampleToken`. -/
def tokenNet : String → ReqResult :=
  fun _ => ReqResult.ok ⟨200, "", encodeOAuthToken sampleToken⟩

/-- Witness for C6 with a failing write: the save error is surfaced but
the freshly obtained token is set in memory. -/
theorem getToken_persists_witness :
    (GetTokenM freshClient none false tokenNet).fst.token = some sampleToken ∧
    (false = true →
      (GetTokenM freshClient none false tokenNet).2.1 =
        some (encodeOAuthToken sampleToken) ∧
      (GetTokenM freshClient none false tokenNet).2.2.2 = Except.ok ()) ∧
    (false = false →
      (GetTokenM freshClient none false tokenNet).2.2.2 =
        Except.error FlowError.saveFailed ∧
      (GetTokenM freshClient none false tokenNet).2.1 = none) :=
  getToken_persists freshClient none false tokenNet
    ⟨200, "", encodeOAuthToken sampleToken⟩ sampleToken rfl rfl rfl
    (decode_encode_token sampleToken)

/-- Claim C7: when the flow reaches the network login, `Login` succeeds
exactly when the decoded response body has a "username" key — whatever
the HTTP status — and the failure carries the decoded response. -/
theorem login_success_criterion (c : ClientS) (store : TokenStore)
    (net : String → ReqResult) (r : HttpResponse) (res : List (String × Json))
    (hfail : ∀ t, LoadTokenM store ≠ Except.ok t)
    (hnet : net (loginURL c) = ReqResult.ok r)
    (hdec : decodeObj r.body = some res) :
    ((LoginM c store net).2.2 = Except.ok () ↔ (jLookup res "username").isSome = true) ∧
    ((jLookup res "username").isSome = false →
      (LoginM c store net).2.2 = Except.error (FlowError.loginFailed res)) := by
  have hL : ∃ e, LoadTokenM store = Except.error e := by
    cases hs : LoadTokenM store with
    | ok t => exact absurd hs (hfail t)
    | error e => exact ⟨e, rfl⟩
  obtain ⟨e, hLs⟩ := hL
  have hM : LoginM c store net =
      (c, [loginURL c],
        if (jLookup res "username").isSome then Except.ok ()
        else Except.error (FlowError.loginFailed res)) := by
    unfold LoginM
    rw [hLs, hnet]
    simp [hdec]
    cases hu : (jLookup res "username").isSome <;> simp [hu]
  rw [hM]
  cases hu : (jLookup res "username").isSome with
  | true => simp
  | false => simp

/-- A login endpoint returning HTTP 200 with a structured error body
(no "username" key), as the upstream service does on bad credentials. -/
def badCredsNet : String → ReqResult :=
  fun _ => ReqResult.ok ⟨200, "", Json.obj [("detail", Json.str "Unable to log in")]⟩

/-- Witness for C7: a 200 response without the username echo is a login
failure carrying the decoded body. -/
theorem login_success_criterion_witness :
    ((LoginM freshClient none badCredsNet).2.2 = Except.ok () ↔
      (jLookup [("detail", Json.str "Unable to log in")] "username").isSome = true) ∧
    ((jLookup [("detail", Json.str "Unable to log in")] "username").isSome = false →
      (LoginM freshClient none badCredsNet).2.2 =
        Except.error (FlowError.loginFailed [("detail", Json.str "Unable to log in")])) :=
  login_success_criterion freshClient none badCredsNet
    ⟨200, "", Json.obj [("detail", Json.str "Unable to log in")]⟩
    [("detail", Json.str "Unable to log in")]
    (by intro t h; cases h) rfl rfl

/-- The primary ranked endpoint URL for a genre. -/
def top100URL (c : ClientS) (genreID : Int) : String :=
  c.baseURL ++ "/catalog/genres/" ++ toString genreID ++ "/top/100?per_page=100"

/-- The fallback search endpoint URL for a genre: filtered by
`q=genre_id:<id>` and `type=tracks`. -/
def searchURL (c : ClientS) (genreID : Int) : String :=
  c.baseURL ++ "/catalog/search?q=genre_id:" ++ toString genreID ++
    "&per_page=100&type=tracks"

/-- `GetTop100(genreID)`: GET the ranked endpoint (every request carries
the bearer header derived from the token; `net` maps the URL to the
post-retry outcome). On 200, decode the "results" list and return it. On
any other status, GET the fallback search endpoint; a non-200 fallback is
the error surfaced (carrying the fallback body), otherwise the "tracks"
list is decoded and returned. Returns the requested URLs and the
result. -/
def GetTop100M (c : ClientS) (genreID : Int) (net : String → ReqResult) :
    List String × Except FlowError (List Track) :=
  match net (top100URL c genreID) with
  | ReqResult.netError e =>
      ([top100URL c genreID], Except.error (FlowError.transportFailed e))
  | ReqResult.ok r =>
      if r.status = 200 then
        match decodeTrackResults r.body with
        | none => ([top100URL c genreID], Except.error FlowError.decodeFailed)
        | some ts => ([top100URL c genreID], Except.ok ts)
      else
        match net (searchURL c genreID) with
        | ReqResult.netError e =>
            ([top100URL c genreID, searchURL c genreID],
              Except.error (FlowError.transportFailed e))
        | ReqResult.ok r₂ =>
            if r₂.status ≠ 200 then
              ([top100URL c genreID, searchURL c genreID],
                Except.error (FlowError.top100FallbackFailed r₂.body))
            else
              match decodeSearchTracks r₂.body with
              | none =>
                  ([top100URL c genreID, searchURL c genreID],
                    Except.error FlowError.decodeFailed)
              | some ts =>
                  ([top100URL c genreID, searchURL c genreID], Except.ok ts)

/-- The spec's example fallback body:
`{"tracks":[{"id":101,"name":"Track 1","artists":[{"name":"Artist 1"}],"mix_name":"Original Mix"}]}`. -/
def exampleFallbackBody : Json :=
  Json.obj
    [("tracks",
      Json.arr
        [Json.obj
          [("id", Json.num 101),
           ("name", Json.str "Track 1"),
           ("artists", Json.arr [Json.obj [("name", Json.str "Artist 1")]]),
           ("mix_name", Json.str "Original Mix")]])]

/-- The track the example fallback body decodes to (absent fields take Go
zero values). -/
def exampleTrack : Track :=
  { id := 101, name := "Track 1",
    artists := [{ id := 0, name := "Artist 1", slug := "" }],
    mixName := "Original Mix" }

/-- A network oracle for the example: the primary ranked endpoint 404s,
the fallback search endpoint answers 200 with the example body. -/
def fallbackNet : String → ReqResult :=
  fun u =>
    if u = top100URL freshClient 1 then ReqResult.ok ⟨404, "", Json.null⟩
    else if u = searchURL freshClient 1 then ReqResult.ok ⟨200, "", exampleFallbackBody⟩
    else ReqResult.netError "unexpected request"

/-- Claim C2: on any non-200 primary status, `GetTop100` issues the
fallback search GET filtered by genre id and track type; a 200 fallback
is decoded under the "tracks" key and returned (on the spec's example,
one Track named "Track 1" with primary artist "Artist 1"); a non-200
fallback is surfaced as the fallback's error, which carries the fallback
body and is the same whatever the primary's non-200 status was. -/
theorem getTop100_fallback (c : ClientS) (genreID : Int)
    (net : String → ReqResult) (r : HttpResponse)
    (hnet : net (top100URL c genreID) = ReqResult.ok r)
    (hst : r.status ≠ 200) :
    (GetTop100M c genreID net).fst = [top100URL c genreID, searchURL c genreID] ∧
    (∀ r₂ ts, net (searchURL c genreID) = ReqResult.ok r₂ → r₂.status = 200 →
      decodeSearchTracks r₂.body = some ts →
      (GetTop100M c genreID net).snd = Except.ok ts) ∧
    (∀ r₂, net (searchURL c genreID) = ReqResult.ok r₂ → r₂.status ≠ 200 →
      (GetTop100M c genreID net).snd =
        Except.error (FlowError.top100FallbackFailed r₂.body)) ∧
    (GetTop100M freshClient 1 fallbackNet).snd = Except.ok [exampleTrack] := by
  have hG : GetTop100M c genreID net =
      (match net (searchURL c genreID) with
        | ReqResult.netError e =>
            ([top100URL c genreID, searchURL c genreID],
              Except.error (FlowError.transportFailed e))
        | ReqResult.ok r₂ =>
            if r₂.status ≠ 200 then
              ([top100URL c genreID, searchURL c genreID],
                Except.error (FlowError.top100FallbackFailed r₂.body))
            else
              match decodeSearchTracks r₂.body with
              | none =>
                  ([top100URL c genreID, searchURL c genreID],
                    Except.error FlowError.decodeFailed)
              | some ts =>
                  ([top100URL c genreID, searchURL c genreID], Except.ok ts)) := by
    unfold GetTop100M
    rw [hnet]
    simp [hst]
  refine ⟨?_, ?_, ?_, rfl⟩
  · rw [hG]
    cases h₂ : net (searchURL c genreID) with
    | netError e => rfl
    | ok r₂ =>
        by_cases h2s : r₂.status = 200
        · simp [h2s]
          cases hd : decodeSearchTracks r₂.body with
          | none => rfl
          | some ts => rfl
        · simp [h2s]
  · intro r₂ ts h₂ h2s hd
    rw [hG, h₂]
    simp [h2s, hd]
  · intro r₂ h₂ h2s
    rw [hG, h₂]
    simp [h2s]

/-- Witness for C2 on the spec's example: primary 404, fallback consulted
and decoded to the single example track. -/
theorem getTop100_fallback_witness :
    (GetTop100M freshClient 1 fallbackNet).fst =
      [top100URL freshClient 1, searchURL freshClient 1] ∧
    (GetTop100M freshClient 1 fallbackNet).snd = Except.ok [exampleTrack] :=
  ⟨(getTop100_fallback freshClient 1 fallbackNet ⟨404, "", Json.null⟩ rfl
      (by decide)).1,
   (getTop100_fallback freshClient 1 fallbackNet ⟨404, "", Json.null⟩ rfl
      (by decide)).2.2.2⟩

/-- The artist column of the CLI display paths: `""` when the track has
no artists, otherwise `track.Artists[0].Name`; the indexing is modelled
as fallible (`none` would be Go's index-out-of-range panic) behind the
code's length guard. -/
def primaryArtistName (artists : List Artist) : Option String :=
  if 0 < artists.length then
    match artists.get? 0 with
    | some a => some a.name
    | none => none
  else some ""

/-- One CSV row of cli `Run`: `artist,title,mix`. -/
def renderTrackCSV (t : Track) : Option String :=
  (primaryArtistName t.artists).map
    (fun a => a ++ "," ++ t.name ++ "," ++ t.mixName)

/-- One line of cli `Run`'s ranked text listing:
`<rank>. <artist> - <title> (<mix>)`. -/
def renderTrackListing (i : Nat) (t : Track) : Option String :=
  (primaryArtistName t.artists).map
    (fun a => toString (i + 1) ++ ". " ++ a ++ " - " ++ t.name ++
      " (" ++ t.mixName ++ ")")

/-- One line of main.go's listing, which joins ALL artist names with
`", "` (`strings.Join` of a nil slice is `""`, so it is total). -/
def renderTrackMain (i : Nat) (t : Track) : String :=
  toString (i + 1) ++ ". " ++ String.intercalate ", " (t.artists.map Artist.name) ++
    " - " ++ t.name ++ " (" ++ t.mixName ++ ")"

/-- Claim C9: every display path is defined on every track — in
particular on tracks with an empty artist list, which render with an
empty artist field. -/
theorem zero_artist_track_display (t : Track) (i : Nat) :
    (renderTrackCSV t).isSome = true ∧
    (renderTrackListing i t).isSome = true ∧
    (t.artists = [] →
      renderTrackCSV t = some ("," ++ t.name ++ "," ++ t.mixName) ∧
      renderTrackListing i t =
        some (toString (i + 1) ++ ". " ++ " - " ++ t.name ++ " (" ++ t.mixName ++ ")") ∧
      renderTrackMain i t =
        toString (i + 1) ++ ". " ++ " - " ++ t.name ++ " (" ++ t.mixName ++ ")") := by
  have hP : (primaryArtistName t.artists).isSome = true := by
    unfold primaryArtistName
    cases ha : t.artists with
    | nil => rfl
    | cons a as => simp
  refine ⟨?_, ?_, ?_⟩
  · unfold renderTrackCSV
    cases hp : primaryArtistName t.artists with
    | none => rw [hp] at hP; cases hP
    | some a => rfl
  · unfold renderTrackListing
    cases hp : primaryArtistName t.artists with
    | none => rw [hp] at hP; cases hP
    | some a => rfl
  · intro h0
    refine ⟨?_, ?_, ?_⟩
    · simp [renderTrackCSV, primaryArtistName, h0]
    · simp [renderTrackListing, primaryArtistName, h0]
    · simp [renderTrackMain, h0, String.intercalate]

/-- A concrete track with no artist credits. -/
def orphanTrack : Track := { id := 7, name := "Acapella", artists := [], mixName := "Dub" }

/-- Witness for C9 at a zero-artist track: all three display paths
produce an empty artist field. -/
theorem zero_artist_track_display_witness :
    (renderTrackCSV orphanTrack).isSome = true ∧
    (renderTrackListing 0 orphanTrack).isSome = true ∧
    (orphanTrack.artists = [] →
      renderTrackCSV orphanTrack =
        some ("," ++ orphanTrack.name ++ "," ++ orphanTrack.mixName) ∧
      renderTrackListing 0 orphanTrack =
        some (toString (0 + 1) ++ ". " ++ " - " ++ orphanTrack.name ++
          " (" ++ orphanTrack.mixName ++ ")") ∧
      renderTrackMain 0 orphanTrack =
        toString (0 + 1) ++ ". " ++ " - " ++ orphanTrack.name ++
          " (" ++ orphanTrack.mixName ++ ")") :=
  zero_artist_track_display orphanTrack 0
